import Mathlib

/-!
Shallow embedding of the pipeline health monitoring subsystem
(`src/data_lake/src/common/pipeline_health_monitor.py`, class
`PipelineHealthMonitor`), together with proofs settling the claims about it.

Filesystem reads (directory walks, `stat` calls, `glob`) are the
external-collaborator boundary: the embedding takes their observable results
(per-zone candidate-file lists, cookie-file lists, modification times) as
explicit inputs, and models every function of the monitor from those inputs on.
Machine times are integers (seconds); `timedelta.days` is floor division by
86400.
-/

/-- `List.isPrefixOf` over characters, spelled out structurally so that it
evaluates in the kernel. -/
def charsPrefix : List Char → List Char → Bool
  | [], _ => true
  | _ :: _, [] => false
  | p :: ps, c :: cs => p == c && charsPrefix ps cs

/-- Does the needle occur as a contiguous run inside the haystack? -/
def charsContains : List Char → List Char → Bool
  | _, [] => true
  | [], _ :: _ => false
  | c :: cs, p :: ps => charsPrefix (p :: ps) (c :: cs) || charsContains cs (p :: ps)

/-- Python's `needle in haystack` substring test. -/
def containsSub (s pat : String) : Bool :=
  charsContains s.data pat.data

/-- Python `f"{x}"` for an optional string (Python prints `None`). -/
def optStrToString : Option String → String
  | some s => s
  | none => "None"

/-- Python `f"{x}"` for an optional integer (Python prints `None`). -/
def optIntToString : Option Int → String
  | some d => toString d
  | none => "None"

/-- Python truthiness of an optional string (`None` and `""` are falsy). -/
def strTruthy : Option String → Bool
  | none => false
  | some s => s != ""

/-- `ServicePriority` enum of the source; `value` mirrors the enum values
(CRITICAL = 1 ... LOW = 4). -/
inductive ServicePriority where
  | CRITICAL
  | HIGH
  | MEDIUM
  | LOW
deriving DecidableEq

/-- The `.value` of the `ServicePriority` enum member. -/
def ServicePriority.value : ServicePriority → Nat
  | .CRITICAL => 1
  | .HIGH => 2
  | .MEDIUM => 3
  | .LOW => 4

/-- `self.services` of the monitor. -/
def monitorServices : List String :=
  ["spotify", "tiktok", "distrokid", "toolost", "linktree", "metaads"]

/-- `self.zones` of the monitor (also the local `zone_order` of
`detect_pipeline_bottlenecks`). -/
def monitorZones : List String := ["landing", "raw", "staging", "curated"]

/-- `self.recency_warning_days`. -/
def recencyWarningDays : Int := 3

/-- `self.recency_critical_days`. -/
def recencyCriticalDays : Int := 7

/-- `self.cleaner_lag_tolerance_days`. -/
def cleanerLagToleranceDays : Int := 1

/-- `self.service_priority.get(service, ServicePriority.LOW)`. -/
def servicePriority (service : String) : ServicePriority :=
  if service = "toolost" then .CRITICAL
  else if service = "spotify" then .HIGH
  else if service = "tiktok" then .HIGH
  else if service = "distrokid" then .MEDIUM
  else if service = "linktree" then .MEDIUM
  else if service = "metaads" then .LOW
  else .LOW

/-- Numerator of the priority multiplier (1.5 / 1.2 / 1.0 / 0.8) as an exact
rational. -/
def priorityMultiplierNum : ServicePriority → Nat
  | .CRITICAL => 3
  | .HIGH => 6
  | .MEDIUM => 1
  | .LOW => 4

/-- Denominator of the priority multiplier as an exact rational. -/
def priorityMultiplierDen : ServicePriority → Nat
  | .CRITICAL => 2
  | .HIGH => 5
  | .MEDIUM => 1
  | .LOW => 5

/-- `int(n * multiplier)` of the source, modelled as an exact rational floor
`⌊n · num/den⌋`.  For every product the scorer forms — `n ∈ {5, 15, 20, 30,
40}` and `n = 10·k` for any bottleneck count `k` — the IEEE-754 double product
with 1.5, 1.2, 1.0 or 0.8 rounds to a value whose truncation coincides with
this rational floor, so the model is exact. -/
def scaledDeduction (p : ServicePriority) (n : Nat) : Nat :=
  n * priorityMultiplierNum p / priorityMultiplierDen p

/-- A regular file as the monitor observes it: base name, path string
(lower-cased, project-relative where applicable) and `st_mtime` in whole
seconds. -/
structure PFile where
  name : String
  path : String
  mtime : Int
deriving DecidableEq

/-- `timedelta.days` of `now - mtime` (floor division of seconds). -/
def daysBetween (now mtime : Int) : Int := (now - mtime).fdiv 86400

/-- First file with maximal mtime, i.e. Python `max(files, key=mtime)`
(Python `max` keeps the earliest maximal element). -/
def maxByMtime (files : List PFile) : Option PFile :=
  files.foldl (fun acc f =>
    match acc with
    | none => some f
    | some g => if f.mtime > g.mtime then some f else some g) none

/-- Observable state of one zone for one service: the zone directory is
absent, or it exists and `_collect_zone_files` (the recursive walk filtered by
the service's file-name hints and the extension allow-list) found the given
candidates. -/
inductive ZoneState where
  | absent
  | present (files : List PFile)
deriving DecidableEq

/-- One entry of the dict built by `check_zone_freshness` (keys `exists`,
`latest_file`, `latest_date`, `latest_timestamp`, `days_old`, `full_path`). -/
structure FreshInfo where
  zoneExists : Bool := false
  latest_file : Option String := none
  latest_date : Option String := none
  latest_timestamp : Option Int := none
  days_old : Option Int := none
  full_path : Option String := none
deriving DecidableEq

/-- The per-service freshness mapping (`Dict[str, Dict]`), as an association
list in insertion order. -/
abbrev Freshness := List (String × FreshInfo)

/-- `freshness.get(zone, {})` followed by field reads: a missing key reads as
a record whose fields are all `None`. -/
def lookupFresh (f : Freshness) (z : String) : FreshInfo :=
  match f.find? (fun p => p.1 == z) with
  | some p => p.2
  | none => {}

/-- `latest_date.strftime('%Y-%m-%d %H:%M:%S')`: only its truthiness
(nonemptiness) is ever read downstream, so the timestamp's decimal rendering
stands in for the formatted date. -/
def formatTimestamp (t : Int) : String := toString t

/-- Freshness record for one zone (`check_zone_freshness` loop body). -/
def freshInfoFor (zs : ZoneState) (now : Int) : FreshInfo :=
  match zs with
  | .absent => { zoneExists := false }
  | .present files =>
    match maxByMtime files with
    | none => { zoneExists := true }
    | some f =>
      { zoneExists := true
        latest_file := some f.name
        latest_date := some (formatTimestamp f.mtime)
        latest_timestamp := some f.mtime
        days_old := some (daysBetween now f.mtime)
        full_path := some f.path }

/-- `check_zone_freshness(service)`: one record per zone in `self.zones`,
computed from the zone's observable state. -/
def checkZoneFreshness (zs : String → ZoneState) (now : Int) : Freshness :=
  monitorZones.map (fun z => (z, freshInfoFor (zs z) now))

/-- Result of `_get_recent_activity_summary`. -/
structure RecentSummary where
  zone : Option String := none
  days_old : Option Int := none
  timestamp : Option Int := none
deriving DecidableEq

/-- Loop body of `_get_recent_activity_summary`: keep the entry with the
strictly smallest `days_old` (first wins on ties), skip entries with no age. -/
def recentStep (acc : RecentSummary) (p : String × FreshInfo) : RecentSummary :=
  match p.2.days_old with
  | none => acc
  | some d =>
    match acc.days_old with
    | none => { zone := some p.1, days_old := some d, timestamp := p.2.latest_timestamp }
    | some m =>
      if d < m then { zone := some p.1, days_old := some d, timestamp := p.2.latest_timestamp }
      else acc

/-- `_get_recent_activity_summary(freshness)`. -/
def getRecentActivitySummary (freshness : Freshness) : RecentSummary :=
  freshness.foldl recentStep {}

/-- `expiry_days.get(service, 30)` of `_check_single_cookie`. -/
def expiryDays (service : String) : Int :=
  if service = "spotify" then 30
  else if service = "tiktok" then 30
  else if service = "distrokid" then 30
  else if service = "toolost" then 7
  else if service = "linktree" then 30
  else if service = "metaads" then 90
  else 30

/-- `cookie_patterns.get(service)` of `check_cookie_health`. -/
def cookiePatterns (service : String) : Option String :=
  if service = "spotify" then some "src/spotify/cookies/spotify_cookies.json"
  else if service = "tiktok" then some "src/tiktok/cookies/tiktok_cookies_*.json"
  else if service = "distrokid" then some "src/distrokid/cookies/distrokid_cookies.json"
  else if service = "toolost" then some "src/toolost/cookies/toolost_cookies.json"
  else if service = "linktree" then some "src/linktree/cookies/linktree_cookies.json"
  else if service = "metaads" then some "src/metaads/cookies/metaads_cookies.json"
  else none

/-- The record built by `_check_single_cookie` (plus the `account` key added
in the wildcard branch of `check_cookie_health`). -/
structure CookieRec where
  status : String
  days_old : Int
  max_age : Int
  expires_in : Int
  file : String
  severity : String
  account : String := ""
deriving DecidableEq

/-- `_check_single_cookie(cookie_path, service)`. -/
def checkSingleCookie (f : PFile) (service : String) (now : Int) : CookieRec :=
  let fileAgeDays := daysBetween now f.mtime
  let maxAge := expiryDays service
  let isExpired := fileAgeDays > maxAge
  { status := if isExpired then "expired" else "valid"
    days_old := fileAgeDays
    max_age := maxAge
    expires_in := if isExpired then 0 else maxAge - fileAgeDays
    file := f.name
    severity := if isExpired then "high" else "normal" }

/-- The cookie-health dict returned by `check_cookie_health`.  The source dict
is heterogeneous: numeric keys are absent on `missing`/`no_check` records and
hold the string `'N/A'` on the `metaads` record; those placeholders are never
read on any code path (every read is guarded by `status`), so they are
modelled by the integer default `0`.  `severity` defaults to `"normal"`
exactly as every read does via `.get('severity', 'normal')`. -/
structure CookieHealth where
  status : String
  message : String := ""
  days_old : Int := 0
  max_age : Int := 0
  expires_in : Int := 0
  severity : String := "normal"
  cookies : List CookieRec := []
  file : String := ""
deriving DecidableEq

/-- A single-file record returned directly as the service's cookie-health
dict (the non-wildcard branch). -/
def cookieRecToHealth (r : CookieRec) : CookieHealth :=
  { status := r.status
    days_old := r.days_old
    max_age := r.max_age
    expires_in := r.expires_in
    severity := r.severity
    file := r.file }

/-- `Path(name).stem` for ordinary dotted file names. -/
def stemOf (n : String) : String :=
  let parts := n.splitOn "."
  if parts.length ≤ 1 then n else String.intercalate "." parts.dropLast

/-- `cookie_file.stem.replace(f'{service}_cookies_', '')`. -/
def accountOf (service : String) (fileName : String) : String :=
  String.join ((stemOf fileName).splitOn (service ++ "_cookies_"))

/-- The severity-aggregation loop of the wildcard branch: start at
`'normal'`; an `expired` entry forces `'high'` and breaks; a `valid` entry
whose remaining window is ≤ 3 days lowers the running value to
`'warning'`. -/
def aggregateSeverity : List CookieRec → String → String
  | [], sev => sev
  | r :: rest, sev =>
    if r.status = "expired" then "high"
    else if r.status = "valid" ∧ r.expires_in ≤ 3 then aggregateSeverity rest "warning"
    else aggregateSeverity rest sev

/-- Observable cookie-artifact filesystem state, keyed by the pattern string:
whether `Path(pattern).parent` exists, the files matched by
`glob(Path(pattern).name)`, and the file at an exact (non-wildcard) path. -/
structure CookieFS where
  dirExists : String → Bool
  glob : String → List PFile
  fileAt : String → Option PFile

/-- `check_cookie_health(service)`. -/
def checkCookieHealth (service : String) (cfs : CookieFS) (now : Int) : CookieHealth :=
  if service = "metaads" then
    { status := "N/A", message := "Uses API authentication", severity := "none" }
  else
    match cookiePatterns service with
    | none => { status := "no_check", message := "No cookie check configured" }
    | some pattern =>
      if containsSub pattern "*" then
        if cfs.dirExists pattern then
          match cfs.glob pattern with
          | [] => { status := "missing", message := "No cookie files found", severity := "high" }
          | f :: fs =>
            let results := (f :: fs).map (fun g =>
              { checkSingleCookie g service now with account := accountOf service g.name })
            { status := "multiple", cookies := results
              severity := aggregateSeverity results "normal" }
        else { status := "missing", message := "No cookie files found", severity := "high" }
      else
        match cfs.fileAt pattern with
        | some f => cookieRecToHealth (checkSingleCookie f service now)
        | none => { status := "missing", message := "Cookie file not found", severity := "high" }

/-- `f"No data in {zone} zone despite recent updates in {previous_zone}"`. -/
def noDataMsg (zone prev : String) : String :=
  "No data in " ++ zone ++ " zone despite recent updates in " ++ prev

/-- `f"{zone_name} zone is {lag} days behind {previous_zone}"`. -/
def lagMsg (zone : String) (lag : Int) (prev : String) : String :=
  zone ++ " zone is " ++ toString lag ++ " days behind " ++ prev

/-- The umbrella finding `"No recent files detected in any zone"`. -/
def umbrellaMsg : String := "No recent files detected in any zone"

/-- The finding `"TooLost files in raw/ but cleaner expects raw/streams/"`. -/
def toolostMismatchMsg : String := "TooLost files in raw/ but cleaner expects raw/streams/"

/-- The finding `"Newer TooLost files in raw/ not being processed"`. -/
def toolostNewerMsg : String := "Newer TooLost files in raw/ not being processed"

/-- The zone walk of `detect_pipeline_bottlenecks`: `previous_zone` /
`previous_days` carry the last zone seen *with* data; a dataless zone after a
recently-updated one is flagged, a zone lagging its predecessor by more than
the tolerance is flagged. -/
def detectZoneLoop (zs : List String) (prevZone : Option String) (prevDays : Option Int)
    (f : Freshness) : List String :=
  match zs with
  | [] => []
  | z :: rest =>
    let info := lookupFresh f z
    let hasData := strTruthy info.latest_date
    let zoneDays := info.days_old
    if hasData then
      (match prevZone, prevDays, zoneDays with
       | some pz, some pd, some zd =>
         if pz != "" ∧ zd - pd > cleanerLagToleranceDays then [lagMsg z (zd - pd) pz] else []
       | _, _, _ => []) ++ detectZoneLoop rest (some z) zoneDays f
    else
      (match prevZone, prevDays with
       | some pz, some pd =>
         if pz != "" ∧ pd ≤ cleanerLagToleranceDays then [noDataMsg z pz] else []
       | _, _ => []) ++ detectZoneLoop rest prevZone prevDays f

/-- Observable state of the TooLost raw-zone layout used by the bespoke check:
whether `raw/toolost/streams/` exists, its `*.json` glob, and the `*.json`
glob of `raw/toolost/` itself (empty when the directory is absent). -/
structure ToolostRawFS where
  streamsDirExists : Bool
  streamsFiles : List PFile
  directFiles : List PFile

/-- The TooLost-specific structural checks of `detect_pipeline_bottlenecks`. -/
def toolostChecks (freshness : Freshness) (tl : ToolostRawFS) : List String :=
  let streamsFiles := if tl.streamsDirExists then tl.streamsFiles else []
  let directFiles := tl.directFiles
  let curatedDays := (lookupFresh freshness "curated").days_old
  let curatedStale :=
    match curatedDays with
    | none => true
    | some cd => cd > recencyWarningDays
  if directFiles ≠ [] ∧ streamsFiles = [] then
    if curatedStale then [toolostMismatchMsg] else []
  else if streamsFiles ≠ [] ∧ directFiles ≠ [] then
    match maxByMtime streamsFiles, maxByMtime directFiles with
    | some ls, some ld =>
      if ld.mtime > ls.mtime then (if curatedStale then [toolostNewerMsg] else []) else []
    | _, _ => []
  else []

/-- `detect_pipeline_bottlenecks(service, freshness)`. -/
def detectPipelineBottlenecks (service : String) (freshness : Freshness)
    (tl : ToolostRawFS) : List String :=
  let walk := detectZoneLoop monitorZones none none freshness
  let walk := walk ++ (if service = "toolost" then toolostChecks freshness tl else [])
  if freshness.any (fun p => strTruthy p.2.latest_date) then walk else walk ++ [umbrellaMsg]

/-- A `RemediationAction` dict: `type`, `service`, `reason`, `priority`. -/
structure RemAction where
  type : String
  service : String
  reason : String
  priority : String
deriving DecidableEq

/-- The cookie-reconciliation paragraph of `get_recommendations` (the first
`if/elif` chain).  Returns the recommendations and auto-actions it appends
plus the (possibly severity-downgraded) cookie-health record — the source
mutates the shared dict in place. -/
def cookieSection (service : String) (recentDays : Option Int) (dataIsFresh : Bool)
    (ck : CookieHealth) : List String × List RemAction × CookieHealth :=
  if service = "metaads" ∧ ck.status = "N/A" then ([], [], ck)
  else if ck.status = "missing" then
    if dataIsFresh then
      ([], [],
       { ck with severity := "low"
                 message := "Cookie file not detected, but recent data updates confirm extractor access" })
    else
      (["Run manual authentication for " ++ service],
       [⟨"cookie_refresh", service, "missing_cookies", "high"⟩], ck)
  else if ck.status = "expired" then
    let daysExpired := ck.days_old - ck.max_age
    if dataIsFresh ∧ daysExpired ≤ recencyCriticalDays then
      ([], [],
       { ck with severity := "low"
                 message := "Cookie timestamp older than policy, but data landed " ++
                   optIntToString recentDays ++ " day(s) ago" })
    else
      (["Refresh " ++ service ++ " cookies (expired " ++ toString daysExpired ++ " days ago)"],
       [⟨"cookie_refresh", service, "expired_" ++ toString daysExpired ++ "_days_ago",
         if daysExpired > 7 then "critical" else "high"⟩], ck)
  else if ck.status = "multiple" then
    if ck.severity = "high" then
      (["Refresh " ++ service ++ " cookies (one or more accounts expired)"],
       [⟨"cookie_refresh", service, "multi_account_expired", "high"⟩], ck)
    else if ck.severity = "warning" ∧ ¬dataIsFresh then
      (["Verify " ++ service ++ " cookies (one or more accounts expiring soon)"],
       [⟨"cookie_refresh", service, "multi_account_expiring", "medium"⟩], ck)
    else ([], [], ck)
  else if ck.status = "valid" ∧ ck.expires_in ≤ 3 then
    if ck.severity ≠ "low" then
      (["Consider refreshing " ++ service ++ " cookies (expires in " ++
          toString ck.expires_in ++ " days)"],
       [⟨"cookie_refresh", service, "expiring_soon_" ++ toString ck.expires_in ++ "_days",
         "medium"⟩], ck)
    else ([], [], ck)
  else ([], [], ck)

/-- The staleness paragraph of `get_recommendations` (`if recent_days is not
None: ...`). -/
def stalenessSection (service : String) (summary : RecentSummary) :
    List String × List RemAction :=
  match summary.days_old with
  | some d =>
    if d > recencyCriticalDays then
      (["URGENT: Run " ++ service ++ " extractor (last data: " ++ toString d ++
          " days ago in " ++ optStrToString summary.zone ++ ")"],
       [⟨"run_extractor", service, "stale_data_" ++ toString d ++ "_days", "high"⟩])
    else if d > recencyWarningDays then
      (["Plan extractor run for " ++ service ++ " (last data " ++ toString d ++
          " days ago in " ++ optStrToString summary.zone ++ ")"], [])
    else ([], [])
  | none => ([], [])

/-- The bottleneck pre-filter of `get_recommendations`: keep the umbrella
finding, drop `"No data in"` findings when data is fresh. -/
def filterBottlenecks (dataIsFresh : Bool) (bottlenecks : List String) : List String :=
  bottlenecks.filter (fun e => e == umbrellaMsg || !(dataIsFresh && containsSub e "No data in"))

/-- The bottleneck-routing loop of `get_recommendations`. -/
def bottleneckRoute (service : String) : List String → List String × List RemAction
  | [] => ([], [])
  | issue :: rest =>
    let cur : List String × List RemAction :=
      if containsSub issue toolostMismatchMsg then
        (["Align TooLost raw directory structure with cleaner expectations"],
         [⟨"fix_directory_mismatch", "toolost", "directory_structure_issue", "critical"⟩])
      else if containsSub issue umbrellaMsg then
        (["Investigate " ++ service ++ " pipeline: no recent files in any zone"], [])
      else if containsSub issue "zone is" || containsSub issue "No data in" then
        ([issue], [⟨"run_cleaners", service, "pipeline_blocked", "medium"⟩])
      else ([], [])
    let next := bottleneckRoute service rest
    (cur.1 ++ next.1, cur.2 ++ next.2)

/-- Result of `get_recommendations`: the two returned lists, plus the
cookie-health record after the in-place mutation. -/
structure RecOut where
  recommendations : List String
  autoActions : List RemAction
  cookie : CookieHealth
deriving DecidableEq

/-- `get_recommendations(service, freshness, cookie_health, bottlenecks)`. -/
def getRecommendations (service : String) (freshness : Freshness)
    (cookieHealth : CookieHealth) (bottlenecks : List String) : RecOut :=
  let summary := getRecentActivitySummary freshness
  let dataIsFresh :=
    match summary.days_old with
    | some d => decide (d ≤ recencyWarningDays)
    | none => false
  let c := cookieSection service summary.days_old dataIsFresh cookieHealth
  let s := stalenessSection service summary
  let b := bottleneckRoute service (filterBottlenecks dataIsFresh bottlenecks)
  { recommendations := c.1 ++ s.1 ++ b.1
    autoActions := c.2.1 ++ s.2 ++ b.2
    cookie := c.2.2 }

/-- The freshness block of `_calculate_weighted_health_score`: staleness-band
deduction from the most-recent-activity age (the `else` arm is the
no-recent-files case). -/
def freshnessDeduction (p : ServicePriority) (recentDays : Option Int) : Int :=
  match recentDays with
  | some d =>
    if d > 14 then scaledDeduction p 40
    else if d > recencyCriticalDays then scaledDeduction p 30
    else if d > recencyWarningDays then scaledDeduction p 15
    else if d > cleanerLagToleranceDays then scaledDeduction p 5
    else 0
  | none => scaledDeduction p 20

/-- The cookie block of `_calculate_weighted_health_score` (skipped for
`metaads`). -/
def cookieDeduction (service : String) (p : ServicePriority) (ck : CookieHealth) : Int :=
  if service ≠ "metaads" then
    if ck.severity = "high" then scaledDeduction p 30
    else if ck.severity = "warning" then scaledDeduction p 15
    else if ck.status = "missing" ∧ ck.severity = "normal" then scaledDeduction p 40
    else 0
  else 0

/-- The `effective_bottlenecks` filter shared by the scorer and the report
renderers. -/
def effectiveBottlenecks (bottlenecks : List String) : List String :=
  bottlenecks.filter (fun b =>
    containsSub b "No data in" || containsSub b "zone is" || containsSub b "No recent files")

/-- The bottleneck block of `_calculate_weighted_health_score`. -/
def bottleneckDeduction (p : ServicePriority) (bottlenecks : List String) : Int :=
  scaledDeduction p ((effectiveBottlenecks bottlenecks).length * 10)

/-- The TooLost special case of `_calculate_weighted_health_score`: an extra
flat 20-point penalty when this critical service is more than a week stale. -/
def toolostPenalty (service : String) (recentDays : Option Int) : Int :=
  if service = "toolost" then
    match recentDays with
    | some d => if d > 7 then 20 else 0
    | none => 0
  else 0

/-- `base_score` of `_calculate_weighted_health_score` before the final
clamp: 100 minus the four deduction blocks in source order. -/
def rawHealthScore (service : String) (freshness : Freshness) (ck : CookieHealth)
    (bottlenecks : List String) : Int :=
  100 - freshnessDeduction (servicePriority service) (getRecentActivitySummary freshness).days_old -
    cookieDeduction service (servicePriority service) ck -
    bottleneckDeduction (servicePriority service) bottlenecks -
    toolostPenalty service (getRecentActivitySummary freshness).days_old

/-- `_calculate_weighted_health_score(service, freshness, cookie_health,
bottlenecks)`: the clamped score `max(0, min(100, base_score))`. -/
def calculateWeightedHealthScore (service : String) (freshness : Freshness)
    (ck : CookieHealth) (bottlenecks : List String) : Int :=
  max 0 (min 100 (rawHealthScore service freshness ck bottlenecks))

/-- The total score deduction of a service for given inputs (how far below
100 the pre-clamp score sits). -/
def healthScoreDeduction (service : String) (freshness : Freshness) (ck : CookieHealth)
    (bottlenecks : List String) : Int :=
  100 - rawHealthScore service freshness ck bottlenecks

/-- `generate_report` calls `get_recommendations` — which mutates the shared
cookie-health dict — *before* `_calculate_weighted_health_score` reads it;
this composition models that ordering for a single service. -/
def scoreAfterRecommendations (service : String) (freshness : Freshness)
    (ck : CookieHealth) (bottlenecks : List String) : Int :=
  calculateWeightedHealthScore service freshness
    (getRecommendations service freshness ck bottlenecks).cookie bottlenecks

/-- `refresh_service` result dict of the external cookie refresher. -/
structure RefreshResult where
  success : Bool
  error : Option String := none

/-- The external collaborators `_execute_auto_remediation` dispatches to.
`Except.error` models the dispatch raising an exception;
`cookieManagerAvailable` models `self.cookie_manager` being non-`None`. -/
structure Collab where
  cookieManagerAvailable : Bool
  refreshService : String → Except String RefreshResult
  runCleaners : String → Except String Bool
  fixToolostDirectory : Except String Bool

/-- A `RemediationOutcome` (the wall-clock timestamp field is omitted). -/
structure Outcome where
  action : RemAction
  executed : Bool
  success : Bool
  message : String
deriving DecidableEq

/-- The body of the `try:` block for one action: which collaborator is
invoked and what outcome it yields, or the exception it raises. -/
def dispatchAction (c : Collab) (a : RemAction) : Except String Outcome :=
  if a.type = "cookie_refresh" ∧ c.cookieManagerAvailable then
    match c.refreshService a.service with
    | .error e => .error e
    | .ok r =>
      if r.success then
        .ok ⟨a, true, true, "Successfully refreshed cookies for " ++ a.service⟩
      else
        .ok ⟨a, true, false, r.error.getD "Unknown error"⟩
  else if a.type = "run_cleaners" then
    match c.runCleaners a.service with
    | .error e => .error e
    | .ok s =>
      .ok ⟨a, true, s, (if s then "Successfully ran" else "Failed to run") ++
        " cleaners for " ++ a.service⟩
  else if a.type = "fix_directory_mismatch" ∧ a.service = "toolost" then
    match c.fixToolostDirectory with
    | .error e => .error e
    | .ok s =>
      .ok ⟨a, true, s,
        if s then "Fixed TooLost directory structure" else "Failed to fix directory structure"⟩
  else .ok ⟨a, false, false, "No handler for action type: " ++ a.type⟩

/-- One loop iteration of `_execute_auto_remediation`: the `except Exception`
arm records a failed outcome carrying the exception message. -/
def executeOne (c : Collab) (a : RemAction) : Outcome :=
  match dispatchAction c a with
  | .ok r => r
  | .error e => ⟨a, true, false, e⟩

/-- `priority_order.get(x['priority'], 999)`. -/
def priorityKey (a : RemAction) : Nat :=
  if a.priority = "critical" then 0
  else if a.priority = "high" then 1
  else if a.priority = "medium" then 2
  else if a.priority = "low" then 3
  else 999

/-- Stable insertion step: the new element goes before the first existing
element whose key is not smaller, i.e. after all strictly-smaller keys and
before equal keys seen later in the input. -/
def insertByPriority (x : RemAction) : List RemAction → List RemAction
  | [] => [x]
  | y :: ys => if priorityKey y < priorityKey x then y :: insertByPriority x ys else x :: y :: ys

/-- `sorted(actions, key=lambda x: priority_order.get(x['priority'], 999))`:
Python's `sorted` is stable; stable insertion sort realizes the same list. -/
def sortActionsByPriority (l : List RemAction) : List RemAction :=
  l.foldr insertByPriority []

/-- `_execute_auto_remediation(actions)`: sort by priority, then execute each
action with its individually-wrapped exception handler. -/
def executeAutoRemediation (c : Collab) (actions : List RemAction) : List Outcome :=
  (sortActionsByPriority actions).map (executeOne c)

/-- Freshness mapping with one curated entry zero days old. -/
def exFreshDay0 : Freshness :=
  [("curated",
    { zoneExists := true, latest_file := some "streams.csv", latest_date := some "0",
      latest_timestamp := some 0, days_old := some 0, full_path := some "4_curated/streams.csv" })]

/-- Freshness mapping with one landing entry two days old. -/
def exFreshDay2 : Freshness :=
  [("landing",
    { zoneExists := true, latest_file := some "a.json", latest_date := some "1",
      latest_timestamp := some 1, days_old := some 2, full_path := some "1_landing/a.json" })]

/-- Freshness mapping with one landing entry five days old. -/
def exFreshDay5 : Freshness :=
  [("landing",
    { zoneExists := true, latest_file := some "a.json", latest_date := some "1",
      latest_timestamp := some 1, days_old := some 5, full_path := some "1_landing/a.json" })]

/-- A cookie-health record expired 15 days past its 30-day policy. -/
def exCookieExpired15 : CookieHealth :=
  { status := "expired", days_old := 45, max_age := 30, expires_in := 0,
    severity := "high", file := "spotify_cookies.json" }

/-- A missing-cookie record as `check_cookie_health` produces it. -/
def exCookieMissing : CookieHealth :=
  { status := "missing", message := "Cookie file not found", severity := "high" }

/-- Zone scan in which every zone directory is absent. -/
def exEmptyZones : String → ZoneState := fun _ => ZoneState.absent

/-- TooLost raw layout with nothing in it. -/
def exToolostEmpty : ToolostRawFS := ⟨false, [], []⟩

/-- Cookie filesystem with no artifacts at all. -/
def exNoCookieFS : CookieFS := ⟨fun _ => false, fun _ => [], fun _ => none⟩

/-- Cookie filesystem with two TikTok account cookie files, one fresh and one
40 days old (expired against the 30-day policy) at `now = 0`. -/
def exTiktokFS : CookieFS :=
  ⟨fun _ => true,
   fun _ => [⟨"tiktok_cookies_zone.json", "src/tiktok/cookies/tiktok_cookies_zone.json", 0⟩,
             ⟨"tiktok_cookies_alt.json", "src/tiktok/cookies/tiktok_cookies_alt.json",
              -3456000⟩],
   fun _ => none⟩

/-- Collaborators that never raise and always succeed. -/
def exCollabOk : Collab :=
  ⟨false, fun _ => Except.ok ⟨true, none⟩, fun _ => Except.ok true, Except.ok true⟩

/-- Collaborators whose cleaner runner raises. -/
def exCollabRaise : Collab :=
  ⟨false, fun _ => Except.ok ⟨true, none⟩, fun _ => Except.error "boom", Except.ok true⟩

/-- Scenario E input batch: priorities critical, low, high. -/
def exActionsCLH : List RemAction :=
  [⟨"run_cleaners", "spotify", "pipeline_blocked", "critical"⟩,
   ⟨"run_cleaners", "spotify", "pipeline_blocked", "low"⟩,
   ⟨"run_cleaners", "spotify", "pipeline_blocked", "high"⟩]

/-- A single cleaner-run action batch for the exception-isolation scenario. -/
def exActionsRaise : List RemAction :=
  [⟨"run_cleaners", "spotify", "pipeline_blocked", "medium"⟩]

theorem clampScore_mono {x y : Int} (h : x ≤ y) :
    max 0 (min 100 x) ≤ max 0 (min 100 y) :=
  max_le_max le_rfl (min_le_min le_rfl h)

theorem scaledDeduction_level_mono (p : ServicePriority) {m n : Nat} (h : m ≤ n) :
    scaledDeduction p m ≤ scaledDeduction p n :=
  Nat.div_le_div_right (Nat.mul_le_mul_right _ h)

theorem freshnessDeduction_mono (p : ServicePriority) {d1 d2 : Int} (h : d1 ≤ d2) :
    freshnessDeduction p (some d1) ≤ freshnessDeduction p (some d2) := by
  have h1 : scaledDeduction p 5 ≤ scaledDeduction p 15 := scaledDeduction_level_mono p (by omega)
  have h2 : scaledDeduction p 15 ≤ scaledDeduction p 30 := scaledDeduction_level_mono p (by omega)
  have h3 : scaledDeduction p 30 ≤ scaledDeduction p 40 := scaledDeduction_level_mono p (by omega)
  simp only [freshnessDeduction, recencyCriticalDays, recencyWarningDays,
    cleanerLagToleranceDays]
  split_ifs <;> omega

theorem toolostPenalty_mono (service : String) {d1 d2 : Int} (h : d1 ≤ d2) :
    toolostPenalty service (some d1) ≤ toolostPenalty service (some d2) := by
  simp only [toolostPenalty]
  split_ifs <;> omega

/-- C2. For every service and every combination of freshness, credential and
bottleneck inputs, `_calculate_weighted_health_score` returns an integer with
0 ≤ score ≤ 100 (the final clamp guarantees both bounds). -/
theorem score_bounds (service : String) (freshness : Freshness) (ck : CookieHealth)
    (bottlenecks : List String) :
    0 ≤ calculateWeightedHealthScore service freshness ck bottlenecks
    ∧ calculateWeightedHealthScore service freshness ck bottlenecks ≤ 100 := by
  unfold calculateWeightedHealthScore
  exact ⟨le_max_left 0 _, max_le (by norm_num) (min_le_left _ _)⟩

/-- C4. With the service, credential record and bottleneck list fixed, the
score is antitone in the most-recent-activity age in days. -/
theorem score_antitone_in_staleness (service : String) (f1 f2 : Freshness)
    (ck : CookieHealth) (bottlenecks : List String) (d1 d2 : Int)
    (h1 : (getRecentActivitySummary f1).days_old = some d1)
    (h2 : (getRecentActivitySummary f2).days_old = some d2)
    (hd : d1 ≤ d2) :
    calculateWeightedHealthScore service f2 ck bottlenecks ≤
      calculateWeightedHealthScore service f1 ck bottlenecks := by
  unfold calculateWeightedHealthScore rawHealthScore
  rw [h1, h2]
  apply clampScore_mono
  have hf := freshnessDeduction_mono (servicePriority service) hd
  have ht := toolostPenalty_mono service hd
  omega

/-- Witness for C4 at ages 2 ≤ 5. -/
theorem score_antitone_in_staleness_witness :
    calculateWeightedHealthScore "spotify" exFreshDay5 exCookieMissing [] ≤
      calculateWeightedHealthScore "spotify" exFreshDay2 exCookieMissing [] :=
  score_antitone_in_staleness "spotify" exFreshDay2 exFreshDay5 exCookieMissing [] 2 5
    (by decide) (by decide) (by decide)

theorem scaledDeduction_priority_mono {p1 p2 : ServicePriority}
    (h : p1.value ≤ p2.value) (n : Nat) :
    scaledDeduction p2 n ≤ scaledDeduction p1 n := by
  cases p1 <;> cases p2 <;>
    simp only [ServicePriority.value, scaledDeduction, priorityMultiplierNum,
      priorityMultiplierDen] at h ⊢ <;> omega

theorem freshnessDeduction_nonneg (p : ServicePriority) (rd : Option Int) :
    0 ≤ freshnessDeduction p rd := by
  cases rd with
  | none => simp [freshnessDeduction]
  | some d =>
    simp only [freshnessDeduction]
    split_ifs <;> simp

theorem cookieDeduction_nonneg (service : String) (p : ServicePriority) (ck : CookieHealth) :
    0 ≤ cookieDeduction service p ck := by
  unfold cookieDeduction
  split_ifs <;> simp

theorem toolostPenalty_nonneg (service : String) (rd : Option Int) :
    0 ≤ toolostPenalty service rd := by
  cases rd <;> simp only [toolostPenalty] <;> split_ifs <;> omega

theorem freshnessDeduction_priority_mono {p1 p2 : ServicePriority}
    (h : p1.value ≤ p2.value) (rd : Option Int) :
    freshnessDeduction p2 rd ≤ freshnessDeduction p1 rd := by
  cases rd with
  | none =>
    simp only [freshnessDeduction]
    exact_mod_cast scaledDeduction_priority_mono h 20
  | some d =>
    have h40 := scaledDeduction_priority_mono h 40
    have h30 := scaledDeduction_priority_mono h 30
    have h15 := scaledDeduction_priority_mono h 15
    have h5 := scaledDeduction_priority_mono h 5
    simp only [freshnessDeduction]
    split_ifs <;> omega

theorem cookieDeduction_priority_mono {s1 s2 : String} {p1 p2 : ServicePriority}
    (hs1 : s1 ≠ "metaads") (hs2 : s2 ≠ "metaads") (h : p1.value ≤ p2.value)
    (ck : CookieHealth) :
    cookieDeduction s2 p2 ck ≤ cookieDeduction s1 p1 ck := by
  unfold cookieDeduction
  rw [if_pos hs1, if_pos hs2]
  have h30 := scaledDeduction_priority_mono h 30
  have h15 := scaledDeduction_priority_mono h 15
  have h40 := scaledDeduction_priority_mono h 40
  split_ifs <;> omega

theorem bottleneckDeduction_priority_mono {p1 p2 : ServicePriority}
    (h : p1.value ≤ p2.value) (b : List String) :
    bottleneckDeduction p2 b ≤ bottleneckDeduction p1 b := by
  unfold bottleneckDeduction
  exact_mod_cast scaledDeduction_priority_mono h _

theorem low_service_is_metaads {s : String} (hs : s ∈ monitorServices)
    (h : servicePriority s = ServicePriority.LOW) : s = "metaads" := by
  simp only [monitorServices, List.mem_cons, List.mem_singleton] at hs
  rcases hs with rfl | rfl | rfl | rfl | rfl | rfl | h' <;> first | rfl | simp [servicePriority] at h
  cases h'

theorem critical_service_is_toolost {s : String} (hs : s ∈ monitorServices)
    (h : servicePriority s = ServicePriority.CRITICAL) : s = "toolost" := by
  simp only [monitorServices, List.mem_cons, List.mem_singleton] at hs
  rcases hs with rfl | rfl | rfl | rfl | rfl | rfl | h' <;> first | rfl | simp [servicePriority] at h
  cases h'

theorem value_ge_four {p : ServicePriority} (h : 4 ≤ p.value) : p = ServicePriority.LOW := by
  cases p <;> simp_all [ServicePriority.value]

theorem value_le_one {p : ServicePriority} (h : p.value ≤ 1) : p = ServicePriority.CRITICAL := by
  cases p <;> simp_all [ServicePriority.value]

/-- C5. Among the configured services, if `s1`'s priority tier is at least as
urgent as `s2`'s (a smaller enum value), then for identical freshness,
credential and bottleneck inputs `s1`'s total score deduction is ≥ `s2`'s. -/
theorem deduction_priority_weighting (s1 s2 : String) (f : Freshness) (ck : CookieHealth)
    (b : List String) (hs1 : s1 ∈ monitorServices) (hs2 : s2 ∈ monitorServices)
    (h : (servicePriority s1).value ≤ (servicePriority s2).value) :
    healthScoreDeduction s2 f ck b ≤ healthScoreDeduction s1 f ck b := by
  unfold healthScoreDeduction rawHealthScore
  have hf := freshnessDeduction_priority_mono h (getRecentActivitySummary f).days_old
  have hb := bottleneckDeduction_priority_mono h b
  have hcd : cookieDeduction s2 (servicePriority s2) ck ≤
      cookieDeduction s1 (servicePriority s1) ck := by
    by_cases hm2 : s2 = "metaads"
    · subst hm2
      have : cookieDeduction "metaads" (servicePriority "metaads") ck = 0 := by
        unfold cookieDeduction
        simp
      rw [this]
      exact cookieDeduction_nonneg _ _ _
    · have hm1 : s1 ≠ "metaads" := by
        intro hcontra
        subst hcontra
        have hp1 : servicePriority "metaads" = ServicePriority.LOW := by
          simp [servicePriority]
        rw [hp1] at h
        have : servicePriority s2 = ServicePriority.LOW :=
          value_ge_four (le_trans (by simp [ServicePriority.value]) h)
        exact hm2 (low_service_is_metaads hs2 this)
      exact cookieDeduction_priority_mono hm1 hm2 h ck
  have htp : toolostPenalty s2 (getRecentActivitySummary f).days_old ≤
      toolostPenalty s1 (getRecentActivitySummary f).days_old := by
    by_cases ht2 : s2 = "toolost"
    · subst ht2
      have hp2 : servicePriority "toolost" = ServicePriority.CRITICAL := by
        simp [servicePriority]
      rw [hp2] at h
      have : servicePriority s1 = ServicePriority.CRITICAL :=
        value_le_one (le_trans h (by simp [ServicePriority.value]))
      rw [critical_service_is_toolost hs1 this]
    · have : toolostPenalty s2 (getRecentActivitySummary f).days_old = 0 := by
        cases hrd : (getRecentActivitySummary f).days_old <;>
          simp only [toolostPenalty] <;> rw [if_neg ht2]
      rw [this]
      exact toolostPenalty_nonneg _ _
  omega

/-- Witness for C5: toolost (critical tier) deducts at least as much as
metaads (low tier) on identical inputs. -/
theorem deduction_priority_weighting_witness :
    healthScoreDeduction "metaads" exFreshDay5 exCookieMissing [] ≤
      healthScoreDeduction "toolost" exFreshDay5 exCookieMissing [] :=
  deduction_priority_weighting "toolost" "metaads" exFreshDay5 exCookieMissing []
    (by decide) (by decide) (by decide)

theorem mem_insertByPriority {a x : RemAction} {l : List RemAction}
    (h : a ∈ insertByPriority x l) : a = x ∨ a ∈ l := by
  induction l with
  | nil => simpa [insertByPriority] using h
  | cons y ys ih =>
    simp only [insertByPriority] at h
    split_ifs at h with hk
    · simp only [List.mem_cons] at h
      rcases h with rfl | h
      · exact Or.inr (List.mem_cons_self _ _)
      · rcases ih h with rfl | h
        · exact Or.inl rfl
        · exact Or.inr (List.mem_cons_of_mem _ h)
    · simpa using h

theorem insertByPriority_pairwise (x : RemAction) (l : List RemAction)
    (h : l.Pairwise (fun a b => priorityKey a ≤ priorityKey b)) :
    (insertByPriority x l).Pairwise (fun a b => priorityKey a ≤ priorityKey b) := by
  induction l with
  | nil => simp [insertByPriority]
  | cons y ys ih =>
    simp only [insertByPriority]
    split_ifs with hk
    · rw [List.pairwise_cons] at h
      refine List.pairwise_cons.mpr ⟨?_, ih h.2⟩
      intro a ha
      rcases mem_insertByPriority ha with rfl | ha
      · omega
      · exact h.1 a ha
    · refine List.pairwise_cons.mpr ⟨?_, h⟩
      intro a ha
      simp only [List.mem_cons] at ha
      rcases ha with rfl | ha
      · omega
      · rw [List.pairwise_cons] at h
        have := h.1 a ha
        omega

theorem sortActionsByPriority_pairwise (l : List RemAction) :
    (sortActionsByPriority l).Pairwise (fun a b => priorityKey a ≤ priorityKey b) := by
  induction l with
  | nil => simp [sortActionsByPriority]
  | cons x xs ih => exact insertByPriority_pairwise x _ ih

theorem insertByPriority_filter (x : RemAction) (l : List RemAction) (p : String) :
    (insertByPriority x l).filter (fun a => a.priority == p) =
      (x :: l).filter (fun a => a.priority == p) := by
  induction l with
  | nil => simp [insertByPriority]
  | cons y ys ih =>
    simp only [insertByPriority]
    split_ifs with hk
    · by_cases hx : x.priority = p
      · by_cases hy : y.priority = p
        · exfalso
          have : priorityKey y = priorityKey x := by
            unfold priorityKey
            rw [hx, hy]
          omega
        · simp only [List.filter_cons]
          rw [ih]
          simp [hx, hy]
      · by_cases hy : y.priority = p <;> simp_all [List.filter_cons]
    · rfl

theorem sortActionsByPriority_filter (l : List RemAction) (p : String) :
    (sortActionsByPriority l).filter (fun a => a.priority == p) =
      l.filter (fun a => a.priority == p) := by
  induction l with
  | nil => rfl
  | cons x xs ih =>
    show (insertByPriority x (sortActionsByPriority xs)).filter _ = _
    rw [insertByPriority_filter]
    simp only [List.filter_cons]
    rw [ih]

theorem sortActionsByPriority_length (l : List RemAction) :
    (sortActionsByPriority l).length = l.length := by
  have hins : ∀ (x : RemAction) (m : List RemAction),
      (insertByPriority x m).length = m.length + 1 := by
    intro x m
    induction m with
    | nil => rfl
    | cons y ys ih =>
      simp only [insertByPriority]
      split_ifs <;> simp [ih]
  induction l with
  | nil => rfl
  | cons x xs ih =>
    show (insertByPriority x (sortActionsByPriority xs)).length = _
    rw [hins, ih, List.length_cons]

theorem executeOne_action (c : Collab) (a : RemAction) : (executeOne c a).action = a := by
  unfold executeOne dispatchAction
  split_ifs <;>
    first
    | rfl
    | (rcases c.refreshService a.service with e | r
       · rfl
       · dsimp only
         split_ifs <;> rfl)
    | (rcases c.runCleaners a.service with e | s <;> rfl)
    | (rcases c.fixToolostDirectory with e | s <;> rfl)

theorem executeAutoRemediation_actions (c : Collab) (l : List RemAction) :
    (executeAutoRemediation c l).map Outcome.action = sortActionsByPriority l := by
  unfold executeAutoRemediation
  rw [List.map_map]
  have : Outcome.action ∘ executeOne c = id := by
    funext a
    exact executeOne_action c a
  rw [this, List.map_id]

/-- C8. `_execute_auto_remediation` processes actions in priority order
critical, high, medium, low: the outcome list's actions are sorted by the
priority key, equal-priority actions keep their input order (the per-priority
sublists are unchanged), and the concrete batch [critical, low, high] yields
outcomes in order critical, high, low. -/
theorem remediation_priority_ordering (c : Collab) (l : List RemAction)
    (_hp : ∀ a ∈ l, a.priority ∈ (["critical", "high", "medium", "low"] : List String)) :
    (((executeAutoRemediation c l).map Outcome.action).Pairwise
        (fun a b => priorityKey a ≤ priorityKey b)
      ∧ ∀ p : String,
          ((executeAutoRemediation c l).map Outcome.action).filter (fun a => a.priority == p)
            = l.filter (fun a => a.priority == p))
    ∧ (executeAutoRemediation exCollabOk exActionsCLH).map (fun o => o.action.priority)
        = ["critical", "high", "low"] := by
  refine ⟨⟨?_, ?_⟩, by decide⟩
  · rw [executeAutoRemediation_actions]
    exact sortActionsByPriority_pairwise l
  · intro p
    rw [executeAutoRemediation_actions]
    exact sortActionsByPriority_filter l p

/-- Witness for C8: Scenario E evaluated through the theorem. -/
theorem remediation_priority_ordering_witness :
    (executeAutoRemediation exCollabOk exActionsCLH).map (fun o => o.action.priority)
      = ["critical", "high", "low"] :=
  (remediation_priority_ordering exCollabOk exActionsCLH (by decide)).2

/-- C9. `_execute_auto_remediation` never propagates an exception: it always
returns exactly one outcome per input action (in sorted order), and an action
whose dispatch raises is recorded as an executed-but-failed outcome carrying
the exception message. -/
theorem remediation_failure_isolation (c : Collab) (l : List RemAction) :
    (executeAutoRemediation c l).length = l.length
    ∧ (executeAutoRemediation c l).map Outcome.action = sortActionsByPriority l
    ∧ ∀ r ∈ executeAutoRemediation c l, ∀ e : String,
        dispatchAction c r.action = Except.error e →
        r.executed = true ∧ r.success = false ∧ r.message = e := by
  refine ⟨?_, executeAutoRemediation_actions c l, ?_⟩
  · unfold executeAutoRemediation
    rw [List.length_map, sortActionsByPriority_length]
  · intro r hr e he
    unfold executeAutoRemediation at hr
    rcases List.mem_map.mp hr with ⟨a, _, rfl⟩
    have ha : (executeOne c a).action = a := executeOne_action c a
    rw [ha] at he
    unfold executeOne
    rw [he]
    exact ⟨rfl, rfl, rfl⟩

/-- Witness for C9: a batch whose single cleaner-run raises still yields one
failed outcome recording the exception message. -/
theorem remediation_failure_isolation_witness :
    (executeAutoRemediation exCollabRaise exActionsRaise).length = exActionsRaise.length
    ∧ ((⟨⟨"run_cleaners", "spotify", "pipeline_blocked", "medium"⟩, true, false, "boom"⟩ :
          Outcome).executed = true
        ∧ (⟨⟨"run_cleaners", "spotify", "pipeline_blocked", "medium"⟩, true, false, "boom"⟩ :
            Outcome).success = false
        ∧ (⟨⟨"run_cleaners", "spotify", "pipeline_blocked", "medium"⟩, true, false, "boom"⟩ :
            Outcome).message = "boom") :=
  ⟨(remediation_failure_isolation exCollabRaise exActionsRaise).1,
   (remediation_failure_isolation exCollabRaise exActionsRaise).2.2
     ⟨⟨"run_cleaners", "spotify", "pipeline_blocked", "medium"⟩, true, false, "boom"⟩
     (by decide) "boom" rfl⟩

theorem bottleneckRoute_types (service : String) (issues : List String) :
    ∀ a ∈ (bottleneckRoute service issues).2,
      a.type = "fix_directory_mismatch" ∨ a.type = "run_cleaners" := by
  induction issues with
  | nil => simp [bottleneckRoute]
  | cons i rest ih =>
    intro a ha
    simp only [bottleneckRoute] at ha
    rw [List.mem_append] at ha
    rcases ha with ha | ha
    · split_ifs at ha <;> simp only [List.mem_singleton, List.not_mem_nil] at ha
      · subst ha
        exact Or.inl rfl
      · subst ha
        exact Or.inr rfl
    · exact ih a ha

theorem cookieSection_fresh_downgrade (service : String) (recentDays : Option Int)
    (ck : CookieHealth)
    (h3 : ck.status = "missing" ∨
      (ck.status = "expired" ∧ ck.days_old - ck.max_age ≤ recencyCriticalDays)) :
    (cookieSection service recentDays true ck).1 = []
    ∧ (cookieSection service recentDays true ck).2.1 = []
    ∧ (cookieSection service recentDays true ck).2.2.severity = "low" := by
  rcases h3 with hm | ⟨he, hd⟩
  · have h1 : ¬(service = "metaads" ∧ ck.status = "N/A") := by
      rw [hm]
      simp
    simp only [cookieSection]
    rw [if_neg h1, if_pos hm]
    simp
  · have h1 : ¬(service = "metaads" ∧ ck.status = "N/A") := by
      rw [he]
      simp
    have h2 : ¬ck.status = "missing" := by
      rw [he]
      simp
    simp only [cookieSection]
    rw [if_neg h1, if_neg h2, if_pos he]
    simp [hd]

theorem stalenessSection_fresh (service : String) (summary : RecentSummary) (d : Int)
    (h : summary.days_old = some d) (h2 : d ≤ recencyWarningDays) :
    stalenessSection service summary = ([], []) := by
  simp only [recencyWarningDays] at h2
  simp only [stalenessSection, h]
  rw [if_neg (by simp only [recencyCriticalDays]; omega),
    if_neg (by simp only [recencyWarningDays]; omega)]

theorem getRecommendations_parts (service : String) (f : Freshness) (ck : CookieHealth)
    (b : List String) (d : Int)
    (h1 : (getRecentActivitySummary f).days_old = some d)
    (h2 : d ≤ recencyWarningDays) :
    getRecommendations service f ck b =
      { recommendations := (cookieSection service (some d) true ck).1 ++
          (bottleneckRoute service (filterBottlenecks true b)).1
        autoActions := (cookieSection service (some d) true ck).2.1 ++
          (bottleneckRoute service (filterBottlenecks true b)).2
        cookie := (cookieSection service (some d) true ck).2.2 } := by
  have hs := stalenessSection_fresh service (getRecentActivitySummary f) d h1 h2
  simp only [getRecommendations, h1, decide_eq_true h2, hs]
  simp

/-- C1 (amended). If the service's most-recent zone data age is within the
warning threshold *and* — for `expired` credentials — the artifact is expired
by at most the critical threshold (7 days), `get_recommendations` emits no
high-or-critical `cookie_refresh` action and downgrades the credential
severity to `low`.  (An artifact expired more than 7 days triggers a
`critical` `cookie_refresh` action even with fresh data.) -/
theorem cookie_reconciliation_fresh_data (service : String) (f : Freshness)
    (ck : CookieHealth) (b : List String) (d : Int)
    (h1 : (getRecentActivitySummary f).days_old = some d)
    (h2 : d ≤ recencyWarningDays)
    (h3 : ck.status = "missing" ∨
      (ck.status = "expired" ∧ ck.days_old - ck.max_age ≤ recencyCriticalDays)) :
    (∀ a ∈ (getRecommendations service f ck b).autoActions,
        ¬(a.type = "cookie_refresh" ∧ (a.priority = "high" ∨ a.priority = "critical")))
    ∧ (getRecommendations service f ck b).cookie.severity = "low" := by
  obtain ⟨hc1, hc2, hc3⟩ := cookieSection_fresh_downgrade service (some d) ck h3
  rw [getRecommendations_parts service f ck b d h1 h2]
  constructor
  · intro a ha
    simp only [hc2, List.nil_append] at ha
    rcases bottleneckRoute_types service _ a ha with ht | ht <;>
      · rintro ⟨hcontra, -⟩
        rw [ht] at hcontra
        exact absurd hcontra (by decide)
  · exact hc3

/-- Witness for the amended C1: missing credentials with day-0 data produce no
cookie-refresh action and a `low` severity. -/
theorem cookie_reconciliation_fresh_data_witness :
    (∀ a ∈ (getRecommendations "spotify" exFreshDay0 exCookieMissing []).autoActions,
        ¬(a.type = "cookie_refresh" ∧ (a.priority = "high" ∨ a.priority = "critical")))
    ∧ (getRecommendations "spotify" exFreshDay0 exCookieMissing []).cookie.severity = "low" :=
  cookie_reconciliation_fresh_data "spotify" exFreshDay0 exCookieMissing [] 0
    (by decide) (by decide) (Or.inl (by decide))

/-- Counterexample to C1 as stated: with data landed today but cookies expired
15 days past policy, `get_recommendations` emits a `critical`-priority
`cookie_refresh` action and leaves the severity at `high` — the claim's
"for every value of days-since-expiry" fails beyond 7 days. -/
theorem cookie_reconciliation_counterexample :
    (getRecentActivitySummary exFreshDay0).days_old = some 0
    ∧ exCookieExpired15.status = "expired"
    ∧ (getRecommendations "spotify" exFreshDay0 exCookieExpired15 []).autoActions
        = [⟨"cookie_refresh", "spotify", "expired_15_days_ago", "critical"⟩]
    ∧ (getRecommendations "spotify" exFreshDay0 exCookieExpired15 []).cookie.severity = "high" := by
  refine ⟨by decide, by decide, by decide, by decide⟩

theorem cookieDeduction_of_low (service : String) (p : ServicePriority) (ck : CookieHealth)
    (h : ck.severity = "low") : cookieDeduction service p ck = 0 := by
  unfold cookieDeduction
  rw [h]
  split_ifs with h1 h2 h3 h4 <;> first | rfl | simp_all

theorem cookieDeduction_healthy (service : String) (p : ServicePriority) (ck : CookieHealth) :
    cookieDeduction service p { ck with status := "valid", severity := "normal" } = 0 := by
  unfold cookieDeduction
  split_ifs with h1 h2 h3 h4 <;> first | rfl | simp_all

/-- C10. When `get_recommendations` downgrades a missing (or ≤ 7-days-expired)
credential record in the presence of fresh data, the mutation is visible to
`_calculate_weighted_health_score` — which `generate_report` runs afterwards
on the same record — so the credential contributes zero deduction and the
score equals the score of a healthy (`valid`/`normal`) credential. -/
theorem downgraded_severity_score (service : String) (f : Freshness) (ck : CookieHealth)
    (b : List String) (d : Int)
    (h1 : (getRecentActivitySummary f).days_old = some d)
    (h2 : d ≤ recencyWarningDays)
    (h3 : ck.status = "missing" ∨
      (ck.status = "expired" ∧ ck.days_old - ck.max_age ≤ recencyCriticalDays)) :
    (getRecommendations service f ck b).cookie.severity = "low"
    ∧ scoreAfterRecommendations service f ck b
      = calculateWeightedHealthScore service f
          { ck with status := "valid", severity := "normal" } b := by
  obtain ⟨-, -, hc3⟩ := cookieSection_fresh_downgrade service (some d) ck h3
  have hcook : (getRecommendations service f ck b).cookie.severity = "low" := by
    rw [getRecommendations_parts service f ck b d h1 h2]
    exact hc3
  refine ⟨hcook, ?_⟩
  unfold scoreAfterRecommendations calculateWeightedHealthScore rawHealthScore
  rw [cookieDeduction_of_low service _ _ hcook, cookieDeduction_healthy]

/-- Witness for C10 with missing credentials and day-0 data. -/
theorem downgraded_severity_score_witness :
    (getRecommendations "spotify" exFreshDay0 exCookieMissing []).cookie.severity = "low"
    ∧ scoreAfterRecommendations "spotify" exFreshDay0 exCookieMissing []
      = calculateWeightedHealthScore "spotify" exFreshDay0
          { exCookieMissing with status := "valid", severity := "normal" } [] :=
  downgraded_severity_score "spotify" exFreshDay0 exCookieMissing [] 0
    (by decide) (by decide) (Or.inl (by decide))

theorem aggregateSeverity_spec (l : List CookieRec) : ∀ sev : String,
    aggregateSeverity l sev =
      if l.any (fun r => r.status == "expired") then "high"
      else if l.any (fun r => r.status == "valid" && decide (r.expires_in ≤ 3)) then "warning"
      else sev := by
  induction l with
  | nil =>
    intro sev
    simp [aggregateSeverity]
  | cons r rest ih =>
    intro sev
    simp only [aggregateSeverity, List.any_cons]
    by_cases h1 : r.status = "expired"
    · simp [h1]
    · by_cases h2 : r.status = "valid" ∧ r.expires_in ≤ 3
      · rw [if_neg h1, if_pos h2, ih "warning"]
        have hb : (r.status == "valid" && decide (r.expires_in ≤ 3)) = true := by
          simp [h2.1, h2.2]
        have hb1 : (r.status == "expired") = false := by
          simp [h1]
        simp only [hb, hb1, Bool.false_or, Bool.true_or, if_true]
        split_ifs <;> rfl
      · rw [if_neg h1, if_neg h2, ih sev]
        have hb : (r.status == "valid" && decide (r.expires_in ≤ 3)) = false := by
          rcases not_and_or.mp h2 with h | h <;> simp [h]
        have hb1 : (r.status == "expired") = false := by
          simp [h1]
        simp only [hb, hb1, Bool.false_or]

theorem cookieSection_multiple_high (service : String) (rd : Option Int) (dif : Bool)
    (ck : CookieHealth) (hs : ck.status = "multiple") (hv : ck.severity = "high") :
    (cookieSection service rd dif ck).2.1 =
      [⟨"cookie_refresh", service, "multi_account_expired", "high"⟩] := by
  simp only [cookieSection]
  rw [if_neg (by rw [hs]; simp), if_neg (by rw [hs]; simp), if_neg (by rw [hs]; simp),
    if_pos hs, if_pos hv]

/-- C6. A wildcard-pattern (multi-account) credential check with at least one
matching file reports aggregate status `multiple` with severity `high` iff
some account record is expired, else `warning` iff some valid account has ≤ 3
days of validity left, else `normal`; and an aggregate `high` severity makes
`get_recommendations` emit a `high`-priority cookie-refresh action. -/
theorem multi_account_severity (cfs : CookieFS) (now : Int) (freshness : Freshness)
    (bottlenecks : List String)
    (h1 : cfs.dirExists "src/tiktok/cookies/tiktok_cookies_*.json" = true)
    (h2 : cfs.glob "src/tiktok/cookies/tiktok_cookies_*.json" ≠ []) :
    (checkCookieHealth "tiktok" cfs now).status = "multiple"
    ∧ (checkCookieHealth "tiktok" cfs now).severity =
        (if (checkCookieHealth "tiktok" cfs now).cookies.any (fun r => r.status == "expired")
         then "high"
         else if (checkCookieHealth "tiktok" cfs now).cookies.any
             (fun r => r.status == "valid" && decide (r.expires_in ≤ 3)) then "warning"
         else "normal")
    ∧ ((checkCookieHealth "tiktok" cfs now).severity = "high" →
        (⟨"cookie_refresh", "tiktok", "multi_account_expired", "high"⟩ : RemAction) ∈
          (getRecommendations "tiktok" freshness (checkCookieHealth "tiktok" cfs now)
            bottlenecks).autoActions) := by
  rcases hg : cfs.glob "src/tiktok/cookies/tiktok_cookies_*.json" with - | ⟨f0, fs⟩
  · exact absurd hg h2
  have hck : checkCookieHealth "tiktok" cfs now =
      { status := "multiple"
        cookies := (f0 :: fs).map (fun g =>
          { checkSingleCookie g "tiktok" now with account := accountOf "tiktok" g.name })
        severity := aggregateSeverity ((f0 :: fs).map (fun g =>
          { checkSingleCookie g "tiktok" now with account := accountOf "tiktok" g.name }))
          "normal" } := by
    unfold checkCookieHealth
    rw [if_neg (by decide : ¬("tiktok" : String) = "metaads")]
    have hp : cookiePatterns "tiktok" = some "src/tiktok/cookies/tiktok_cookies_*.json" := by
      decide
    rw [hp]
    dsimp only
    rw [if_pos (by decide :
      containsSub "src/tiktok/cookies/tiktok_cookies_*.json" "*" = true)]
    rw [if_pos h1, hg]
  refine ⟨by rw [hck], ?_, ?_⟩
  · rw [hck]
    exact aggregateSeverity_spec _ "normal"
  · intro hhigh
    have hact := cookieSection_multiple_high "tiktok"
      (getRecentActivitySummary freshness).days_old
      (match (getRecentActivitySummary freshness).days_old with
       | some d => decide (d ≤ recencyWarningDays)
       | none => false)
      (checkCookieHealth "tiktok" cfs now) (by rw [hck]) hhigh
    simp only [getRecommendations, hact]
    simp

/-- Witness for C6: the two-account TikTok state yields a `multiple` record. -/
theorem multi_account_severity_witness :
    (checkCookieHealth "tiktok" exTiktokFS 0).status = "multiple" :=
  (multi_account_severity exTiktokFS 0 [] [] rfl (by decide)).1

theorem freshInfoFor_empty {z : ZoneState}
    (h : z = ZoneState.absent ∨ z = ZoneState.present []) (now : Int) :
    (freshInfoFor z now).days_old = none ∧ (freshInfoFor z now).latest_date = none
    ∧ (freshInfoFor z now).latest_file = none := by
  rcases h with rfl | rfl <;> exact ⟨rfl, rfl, rfl⟩

theorem foldl_recentStep_none (f : Freshness) (h : ∀ p ∈ f, p.2.days_old = none) :
    ∀ acc, f.foldl recentStep acc = acc := by
  induction f with
  | nil =>
    intro acc
    rfl
  | cons p rest ih =>
    intro acc
    have hp : p.2.days_old = none := h p (List.mem_cons_self _ _)
    simp only [List.foldl_cons]
    rw [show recentStep acc p = acc by unfold recentStep; rw [hp]]
    exact ih (fun q hq => h q (List.mem_cons_of_mem _ hq)) acc

theorem getRecentActivitySummary_all_none (f : Freshness)
    (h : ∀ p ∈ f, p.2.days_old = none) : getRecentActivitySummary f = {} :=
  foldl_recentStep_none f h {}

theorem lookupFresh_falsy (f : Freshness)
    (h : ∀ p ∈ f, strTruthy p.2.latest_date = false) (z : String) :
    strTruthy (lookupFresh f z).latest_date = false := by
  unfold lookupFresh
  cases hf : f.find? (fun p => p.1 == z) with
  | none => rfl
  | some p => exact h p (List.mem_of_find?_eq_some hf)

theorem detectZoneLoop_all_falsy (f : Freshness)
    (h : ∀ p ∈ f, strTruthy p.2.latest_date = false) :
    ∀ zs, detectZoneLoop zs none none f = [] := by
  intro zs
  induction zs with
  | nil => rfl
  | cons z rest ih =>
    simp only [detectZoneLoop]
    rw [lookupFresh_falsy f h z]
    simpa using ih

theorem toolostChecks_no_direct (f : Freshness) (tl : ToolostRawFS)
    (hd : tl.directFiles = []) : toolostChecks f tl = [] := by
  simp only [toolostChecks, hd]
  split_ifs <;> simp_all

theorem detect_all_falsy (service : String) (f : Freshness) (tl : ToolostRawFS)
    (h : ∀ p ∈ f, strTruthy p.2.latest_date = false)
    (htl : tl.directFiles = []) :
    detectPipelineBottlenecks service f tl = [umbrellaMsg] := by
  unfold detectPipelineBottlenecks
  rw [detectZoneLoop_all_falsy f h]
  have hany : f.any (fun p => strTruthy p.2.latest_date) = false := by
    simp only [List.any_eq_false]
    intro p hp
    simp [h p hp]
  rw [hany, toolostChecks_no_direct f tl htl]
  simp

theorem checkCookieHealth_missing_high (service : String) (cfs : CookieFS) (now : Int)
    (h : (checkCookieHealth service cfs now).status = "missing") :
    (checkCookieHealth service cfs now).severity = "high" := by
  unfold checkCookieHealth at h ⊢
  by_cases h1 : service = "metaads"
  · rw [if_pos h1] at h
    exact absurd h (by decide)
  · rw [if_neg h1] at h ⊢
    cases hp : cookiePatterns service with
    | none =>
      rw [hp] at h
      simp at h
    | some pat =>
      rw [hp] at h
      dsimp only at h ⊢
      by_cases hw : containsSub pat "*" = true
      · rw [if_pos hw] at h ⊢
        by_cases hde : cfs.dirExists pat = true
        · rw [if_pos hde] at h ⊢
          cases hg : cfs.glob pat with
          | nil => rfl
          | cons f0 fs =>
            rw [hg] at h
            simp at h
        · rw [if_neg hde]
      · rw [if_neg hw] at h ⊢
        cases hf : cfs.fileAt pat with
        | some f =>
          rw [hf] at h
          exfalso
          revert h
          unfold cookieRecToHealth checkSingleCookie
          dsimp only
          split_ifs <;> decide
        | none => rfl

theorem checkCookieHealth_missing_not_metaads (service : String) (cfs : CookieFS) (now : Int)
    (h : (checkCookieHealth service cfs now).status = "missing") : service ≠ "metaads" := by
  intro hcontra
  rw [hcontra] at h
  revert h
  unfold checkCookieHealth
  rw [if_pos rfl]
  decide

/-- C3 (amended). For a service with no matching file in any zone and a
missing credential artifact: every zone freshness record has no latest file,
the bottleneck detector returns exactly the umbrella finding, and — at
priority multiplier 1.0 (MEDIUM tier) — the health score is exactly 40
(deductions 20 for no recent files + 30 for high credential severity + 10 for
the one bottleneck). -/
theorem empty_pipeline_snapshot (service : String) (zs : String → ZoneState)
    (tl : ToolostRawFS) (cfs : CookieFS) (now : Int)
    (hzones : ∀ z ∈ monitorZones, zs z = ZoneState.absent ∨ zs z = ZoneState.present [])
    (htl : tl.directFiles = [])
    (hcookie : (checkCookieHealth service cfs now).status = "missing")
    (hmed : servicePriority service = ServicePriority.MEDIUM) :
    (∀ z ∈ monitorZones, (lookupFresh (checkZoneFreshness zs now) z).latest_file = none)
    ∧ detectPipelineBottlenecks service (checkZoneFreshness zs now) tl = [umbrellaMsg]
    ∧ calculateWeightedHealthScore service (checkZoneFreshness zs now)
        (checkCookieHealth service cfs now)
        (detectPipelineBottlenecks service (checkZoneFreshness zs now) tl) = 40 := by
  have hall : ∀ p ∈ checkZoneFreshness zs now,
      p.2.days_old = none ∧ p.2.latest_date = none ∧ p.2.latest_file = none := by
    intro p hp
    rcases List.mem_map.mp hp with ⟨z, hz, rfl⟩
    exact freshInfoFor_empty (hzones z hz) now
  have hfalsy : ∀ p ∈ checkZoneFreshness zs now, strTruthy p.2.latest_date = false := by
    intro p hp
    rw [(hall p hp).2.1]
    rfl
  have hdet : detectPipelineBottlenecks service (checkZoneFreshness zs now) tl =
      [umbrellaMsg] := detect_all_falsy service _ tl hfalsy htl
  have hdays : (getRecentActivitySummary (checkZoneFreshness zs now)).days_old = none := by
    rw [getRecentActivitySummary_all_none _ (fun p hp => (hall p hp).1)]
  refine ⟨?_, hdet, ?_⟩
  · intro z hz
    unfold lookupFresh
    cases hf : (checkZoneFreshness zs now).find? (fun p => p.1 == z) with
    | none => rfl
    | some p => exact (hall p (List.mem_of_find?_eq_some hf)).2.2
  · have hsev := checkCookieHealth_missing_high service cfs now hcookie
    have hnm := checkCookieHealth_missing_not_metaads service cfs now hcookie
    unfold calculateWeightedHealthScore rawHealthScore
    rw [hdet, hdays, hmed]
    have h2 : cookieDeduction service ServicePriority.MEDIUM
        (checkCookieHealth service cfs now) = 30 := by
      unfold cookieDeduction
      rw [if_pos hnm, if_pos hsev]
      decide
    rw [h2]
    have h1 : freshnessDeduction ServicePriority.MEDIUM none = 20 := by decide
    have h3 : bottleneckDeduction ServicePriority.MEDIUM [umbrellaMsg] = 10 := by decide
    have h4 : toolostPenalty service none = 0 := by
      simp only [toolostPenalty]
      split_ifs <;> rfl
    rw [h1, h3, h4]
    decide

/-- Witness for the amended C3 at a concrete empty filesystem for linktree. -/
theorem empty_pipeline_snapshot_witness :
    (∀ z ∈ monitorZones,
        (lookupFresh (checkZoneFreshness exEmptyZones 0) z).latest_file = none)
    ∧ detectPipelineBottlenecks "linktree" (checkZoneFreshness exEmptyZones 0) exToolostEmpty
        = [umbrellaMsg]
    ∧ calculateWeightedHealthScore "linktree" (checkZoneFreshness exEmptyZones 0)
        (checkCookieHealth "linktree" exNoCookieFS 0)
        (detectPipelineBottlenecks "linktree" (checkZoneFreshness exEmptyZones 0)
          exToolostEmpty) = 40 :=
  empty_pipeline_snapshot "linktree" exEmptyZones exToolostEmpty exNoCookieFS 0
    (by decide) rfl (by decide) (by decide)

/-- Counterexample to C3 as stated: in the all-empty scenario with a missing
credential and multiplier 1.0 (distrokid, MEDIUM tier) the score is 40, which
is not ≤ 20 — the claimed bound is wrong. -/
theorem empty_pipeline_score_counterexample :
    calculateWeightedHealthScore "distrokid" (checkZoneFreshness exEmptyZones 0)
        (checkCookieHealth "distrokid" exNoCookieFS 0)
        (detectPipelineBottlenecks "distrokid" (checkZoneFreshness exEmptyZones 0)
          exToolostEmpty) = 40
    ∧ ¬(calculateWeightedHealthScore "distrokid" (checkZoneFreshness exEmptyZones 0)
        (checkCookieHealth "distrokid" exNoCookieFS 0)
        (detectPipelineBottlenecks "distrokid" (checkZoneFreshness exEmptyZones 0)
          exToolostEmpty) ≤ 20) := by
  decide

theorem string_data_append (s t : String) : (s ++ t).data = s.data ++ t.data := by
  cases s
  cases t
  rfl

theorem head_append_chars (l r : List Char) : (l ++ r).head? = (l.head? <|> r.head?) := by
  cases l <;> rfl

theorem append_head_eq (a b : String) {c : Char} (ha : a.data.head? = some c) :
    (a ++ b).data.head? = some c := by
  rw [string_data_append, head_append_chars, ha]
  rfl

theorem noDataMsg_ne_umbrella (z p : String) : noDataMsg z p ≠ umbrellaMsg := by
  intro h
  have hl := congrArg String.length h
  simp only [noDataMsg, String.length_append] at hl
  have h1 : ("No data in " : String).length = 11 := rfl
  have h2 : (" zone despite recent updates in " : String).length = 32 := rfl
  have h3 : umbrellaMsg.length = 36 := rfl
  rw [h1, h2, h3] at hl
  omega

theorem lagMsg_ne_umbrella {z : String} (hz : z ∈ monitorZones) (lag : Int) (p : String) :
    lagMsg z lag p ≠ umbrellaMsg := by
  have hz4 : z.data.head? = some 'l' ∨ z.data.head? = some 'r' ∨ z.data.head? = some 's' ∨
      z.data.head? = some 'c' := by
    fin_cases hz
    · exact Or.inl rfl
    · exact Or.inr (Or.inl rfl)
    · exact Or.inr (Or.inr (Or.inl rfl))
    · exact Or.inr (Or.inr (Or.inr rfl))
  intro h
  have hh : (lagMsg z lag p).data.head? = umbrellaMsg.data.head? := by rw [h]
  rcases hz4 with hc | hc | hc | hc <;>
    rw [show lagMsg z lag p =
        ((z ++ " zone is " ++ toString lag ++ " days behind ") ++ p) from rfl,
      append_head_eq _ p (append_head_eq _ _ (append_head_eq _ _ (append_head_eq _ _ hc)))]
      at hh <;>
    exact absurd hh (by decide)

theorem umbrella_not_mem_zoneLoop : ∀ (zs : List String),
    (∀ z ∈ zs, z ∈ monitorZones) → ∀ (pz : Option String) (pd : Option Int) (f : Freshness),
    umbrellaMsg ∉ detectZoneLoop zs pz pd f := by
  intro zs
  induction zs with
  | nil =>
    intro _ pz pd f
    simp [detectZoneLoop]
  | cons z rest ih =>
    intro hsub pz pd f hmem
    have hzmem : z ∈ monitorZones := hsub z (List.mem_cons_self _ _)
    have hsub' : ∀ w ∈ rest, w ∈ monitorZones :=
      fun w hw => hsub w (List.mem_cons_of_mem _ hw)
    simp only [detectZoneLoop] at hmem
    split_ifs at hmem <;> rw [List.mem_append] at hmem <;> rcases hmem with hm | hm
    · rcases pz with - | pzv
      · simp at hm
      · rcases pd with - | pdv
        · simp at hm
        · rcases hzd : (lookupFresh f z).days_old with - | zdv <;> rw [hzd] at hm <;>
            dsimp only at hm
          · simp at hm
          · split_ifs at hm
            · rw [List.mem_singleton] at hm
              exact lagMsg_ne_umbrella hzmem (zdv - pdv) pzv hm.symm
            · simp at hm
    · exact ih hsub' _ _ f hm
    · rcases pz with - | pzv
      · simp at hm
      · rcases pd with - | pdv
        · simp at hm
        · dsimp only at hm
          split_ifs at hm
          · rw [List.mem_singleton] at hm
            exact noDataMsg_ne_umbrella z pzv hm.symm
          · simp at hm
    · exact ih hsub' _ _ f hm

theorem toolostChecks_sub (f : Freshness) (tl : ToolostRawFS) :
    ∀ b ∈ toolostChecks f tl, b = toolostMismatchMsg ∨ b = toolostNewerMsg := by
  intro b hb
  simp only [toolostChecks] at hb
  split_ifs at hb <;>
    first
      | (rw [List.mem_singleton] at hb
         exact Or.inl hb)
      | (exact absurd hb (List.not_mem_nil b))
      | (revert hb
         generalize maxByMtime _ = o1
         generalize maxByMtime _ = o2
         intro hb
         rcases o1 with - | ls <;> rcases o2 with - | ld
         · simp at hb
         · simp at hb
         · simp at hb
         · dsimp only at hb
           split_ifs at hb <;>
             first
               | (rw [List.mem_singleton] at hb
                  exact Or.inr hb)
               | simp at hb)

/-- C7. The umbrella finding is emitted iff no zone entry of the freshness
mapping has any data, and when it is emitted no per-zone
`"No data in ..."` finding co-occurs with it. -/
theorem bottleneck_umbrella_iff (service : String) (f : Freshness) (tl : ToolostRawFS) :
    (umbrellaMsg ∈ detectPipelineBottlenecks service f tl ↔
      ∀ p ∈ f, strTruthy p.2.latest_date = false)
    ∧ (umbrellaMsg ∈ detectPipelineBottlenecks service f tl →
        ∀ b ∈ detectPipelineBottlenecks service f tl, containsSub b "No data in" = false) := by
  have hwalkne : umbrellaMsg ∉ detectZoneLoop monitorZones none none f :=
    umbrella_not_mem_zoneLoop monitorZones (fun z hz => hz) none none f
  have htlne : ∀ b ∈ (if service = "toolost" then toolostChecks f tl else []),
      b ≠ umbrellaMsg := by
    intro b hb
    split_ifs at hb
    · rcases toolostChecks_sub f tl b hb with rfl | rfl <;> decide
    · simp at hb
  have hiff : umbrellaMsg ∈ detectPipelineBottlenecks service f tl ↔
      ∀ p ∈ f, strTruthy p.2.latest_date = false := by
    constructor
    · intro hmem
      by_cases hany : f.any (fun p => strTruthy p.2.latest_date) = true
      · exfalso
        simp only [detectPipelineBottlenecks] at hmem
        rw [if_pos hany, List.mem_append] at hmem
        rcases hmem with hm | hm
        · exact hwalkne hm
        · exact htlne _ hm rfl
      · intro p hp
        rw [Bool.not_eq_true, List.any_eq_false] at hany
        simpa using hany p hp
    · intro hall
      simp only [detectPipelineBottlenecks]
      rw [if_neg (by
        rw [Bool.not_eq_true, List.any_eq_false]
        intro p hp
        simp [hall p hp])]
      exact List.mem_append_right _ (List.mem_singleton.mpr rfl)
  refine ⟨hiff, ?_⟩
  intro hmem b hb
  have hall := hiff.mp hmem
  have hwalknil : detectZoneLoop monitorZones none none f = [] :=
    detectZoneLoop_all_falsy f hall monitorZones
  simp only [detectPipelineBottlenecks] at hb
  rw [hwalknil] at hb
  rw [if_neg (by
    rw [Bool.not_eq_true, List.any_eq_false]
    intro p hp
    simp [hall p hp])] at hb
  simp only [List.nil_append, List.mem_append] at hb
  rcases hb with hb | hb
  · split_ifs at hb
    · rcases toolostChecks_sub f tl b hb with rfl | rfl <;> decide
    · simp at hb
  · rw [List.mem_singleton] at hb
    subst hb
    decide

/-- Witness for C7: the empty mapping has no data anywhere, so the umbrella
finding is present. -/
theorem bottleneck_umbrella_iff_witness :
    umbrellaMsg ∈ detectPipelineBottlenecks "spotify" [] exToolostEmpty :=
  (bottleneck_umbrella_iff "spotify" [] exToolostEmpty).1.mpr (by simp)
